import Mathlib

/-!
Verification of the geometric placement engine of the PDF stamping program
(src/main.py).  The program is embedded shallowly: dimensions, margins and
sampled values are rationals (Python floats modelled by exact arithmetic);
Python exceptions become `Except String`; the process-wide random source is
an explicit stream `rnd : ℕ → ℚ` of draws in `[0, 1]`, with
`random.uniform(a, b)` modelled as `a + (b - a) * u` (the CPython formula);
the external PyPDF2/reportlab collaborators are modelled by their contracts:
a `Page` carries its mediabox dimensions and optional `/Rotate` value, the
image is given by its native dimensions, and a successful run returns the
list of pages the writer serializes, each paired with the `Placement`
(position, angle, stamped image size) handed to the compositor.
-/

namespace PDFstamping

/-- Conversion factor from src/main.py line 10: 1 mm = 2.83465 points. -/
def MM_TO_POINTS : ℚ := 2.83465

/-- A page of the input document: mediabox width/height and the optional
value of the `/Rotate` key (`none` models a page without the key, so that
`page.get('/Rotate', 0)` yields 0). -/
structure Page where
  mediaboxWidth : ℚ
  mediaboxHeight : ℚ
  rotate : Option ℤ
deriving Repr, DecidableEq

/-- The data handed to `create_image_layer` for one page (src/main.py
lines 93-98): the sampled position and angle together with the stamped
image dimensions. -/
structure Placement where
  x : ℚ
  y : ℚ
  angle : ℚ
  img_width : ℚ
  img_height : ℚ
deriving Repr, DecidableEq

/-- check_file_exists (src/main.py lines 12-15).  The file system is the
predicate `fs`; the FileNotFoundError becomes an `Except.error` carrying
the formatted message. -/
def check_file_exists (fs : String → Bool) (file_path file_type : String) :
    Except String Unit :=
  if fs file_path then Except.ok ()
  else Except.error (file_type ++ " file not found: " ++ file_path)

/-- get_image_dimensions (src/main.py lines 17-27).  `ImageReader.getSize`
is external, so the model receives the native dimensions directly.  The
source computes `img_height = img_width / aspect_ratio` after reassigning
`img_width = max_width`. -/
def get_image_dimensions (img_width img_height max_width : ℚ) : ℚ × ℚ :=
  let aspect := img_width / img_height
  if img_width > max_width then (max_width, max_width / aspect)
  else (img_width, img_height)

/-- determine_page_orientation (src/main.py lines 29-39): swap the mediabox
dimensions when the rotation is 90 or 270, then report landscape iff the
effective width strictly exceeds the effective height. -/
def determine_page_orientation (page : Page) : ℚ × ℚ × Bool :=
  let r := page.rotate.getD 0
  let page_width :=
    if r = 90 ∨ r = 270 then page.mediaboxHeight else page.mediaboxWidth
  let page_height :=
    if r = 90 ∨ r = 270 then page.mediaboxWidth else page.mediaboxHeight
  (page_width, page_height, decide (page_width > page_height))

/-- calculate_position_bounds (src/main.py lines 41-52). -/
def calculate_position_bounds (page_width page_height img_width img_height
    top_margin bottom_margin side_margin : ℚ) : Except String (ℚ × ℚ × ℚ × ℚ) :=
  let max_x := page_width - img_width - side_margin
  let min_x := side_margin
  let max_y := page_height - img_height - top_margin
  let min_y := bottom_margin
  if max_x ≤ min_x ∨ max_y ≤ min_y then
    Except.error "Margins too large for image placement with current image size"
  else
    Except.ok (min_x, max_x, min_y, max_y)

/-- Model of `random.uniform(a, b)`: CPython returns `a + (b - a) * random()`
where `random()` draws from `[0, 1)`; the draw is the explicit argument `u`. -/
def uniform (a b u : ℚ) : ℚ := a + (b - a) * u

/-- get_random_position (src/main.py lines 54-58): two independent uniform
draws `ux`, `uy` of the random source. -/
def get_random_position (min_x max_x min_y max_y ux uy : ℚ) : ℚ × ℚ :=
  (uniform min_x max_x ux, uniform min_y max_y uy)

/-- The angle draw on src/main.py line 140:
`random.uniform(0, 10) if not is_landscape else random.uniform(90, 75)`,
keeping the reversed "upper,lower" argument order for landscape. -/
def sample_rotation_angle (is_landscape : Bool) (u : ℚ) : ℚ :=
  if is_landscape then uniform 90 75 u else uniform 0 10 u

/-- process_page (src/main.py lines 83-101): resolve orientation, compute
bounds (propagating the ValueError), sample a position, and hand the data
to the compositor.  The external merge/compositing step is modelled by
returning the `Placement` the compositor receives. -/
def process_page (page : Page) (img_width img_height top_margin bottom_margin
    side_margin rotation_angle ux uy : ℚ) : Except String Placement :=
  let page_width := (determine_page_orientation page).1
  let page_height := (determine_page_orientation page).2.1
  match calculate_position_bounds page_width page_height img_width img_height
      top_margin bottom_margin side_margin with
  | Except.error e => Except.error e
  | Except.ok bounds =>
    let pos := get_random_position bounds.1 bounds.2.1 bounds.2.2.1 bounds.2.2.2 ux uy
    Except.ok ⟨pos.1, pos.2, rotation_angle, img_width, img_height⟩

/-- The millimetre-to-point conversion applied to the three margins at the
top of insert_image_to_pdf (src/main.py lines 121-123); these are exactly
the margin values later passed into the geometry computation. -/
def convertMargins (top_margin bottom_margin side_margin : ℚ) : ℚ × ℚ × ℚ :=
  (top_margin * MM_TO_POINTS, bottom_margin * MM_TO_POINTS, side_margin * MM_TO_POINTS)

/-- The per-page loop of insert_image_to_pdf (src/main.py lines 133-147):
pages in input order, a fresh angle draw per page, ValueError from bounds
computation re-raised annotated with the 1-based page index, which aborts
the whole run.  `ctr` indexes the random stream (the angle draw uses one
slot, the position draws two); `page_num` is the 0-based page counter. -/
def pageLoop (img_width img_height top_margin bottom_margin side_margin : ℚ)
    (rnd : ℕ → ℚ) : List Page → ℕ → ℕ → Except String (List (Page × Placement))
  | [], _, _ => Except.ok []
  | page :: rest, ctr, page_num =>
    let is_landscape := (determine_page_orientation page).2.2
    let rotation_angle := sample_rotation_angle is_landscape (rnd ctr)
    match process_page page img_width img_height top_margin bottom_margin
        side_margin rotation_angle (rnd (ctr + 1)) (rnd (ctr + 2)) with
    | Except.error e =>
      Except.error ("Page " ++ toString (page_num + 1) ++ ": " ++ e)
    | Except.ok pl =>
      match pageLoop img_width img_height top_margin bottom_margin side_margin
          rnd rest (ctr + 3) (page_num + 1) with
      | Except.error e => Except.error e
      | Except.ok tail => Except.ok ((page, pl) :: tail)

/-- insert_image_to_pdf (src/main.py lines 103-150): convert the margins,
check both input paths, read the input, scale the image once with the
default max_width of 200, process every page, and only then write the
output.  A successful result is the page list handed to the writer; an
error models the exception that prevents the output file from being
written. -/
def insert_image_to_pdf (fs : String → Bool) (input_pdf_path image_path : String)
    (input_pages : List Page) (native_width native_height : ℚ) (rnd : ℕ → ℚ)
    (top_margin bottom_margin side_margin : ℚ) :
    Except String (List (Page × Placement)) :=
  match check_file_exists fs input_pdf_path "Input PDF" with
  | Except.error e => Except.error e
  | Except.ok _ =>
    match check_file_exists fs image_path "Image" with
    | Except.error e => Except.error e
    | Except.ok _ =>
      pageLoop (get_image_dimensions native_width native_height 200).1
        (get_image_dimensions native_width native_height 200).2
        (convertMargins top_margin bottom_margin side_margin).1
        (convertMargins top_margin bottom_margin side_margin).2.1
        (convertMargins top_margin bottom_margin side_margin).2.2
        rnd input_pages 0 0

/-- A page is infeasible for the given stamped image size and point-unit
margins exactly when calculate_position_bounds would raise for it. -/
def pageInfeasible (page : Page) (img_width img_height top_margin bottom_margin
    side_margin : ℚ) : Prop :=
  (determine_page_orientation page).1 - img_width - side_margin ≤ side_margin ∨
  (determine_page_orientation page).2.1 - img_height - top_margin ≤ bottom_margin

instance (page : Page) (a b c d e : ℚ) : Decidable (pageInfeasible page a b c d e) := by
  unfold pageInfeasible
  exact inferInstance

/-! ## Helper lemmas shared by several claims -/

/-- calculate_position_bounds, written as a single conditional. -/
theorem calculate_position_bounds_eq (W H w h t b s : ℚ) :
    calculate_position_bounds W H w h t b s =
      (if W - w - s ≤ s ∨ H - h - t ≤ b then
        Except.error "Margins too large for image placement with current image size"
      else Except.ok (s, W - w - s, b, H - h - t)) := rfl

/-- process_page raises exactly the bounds-infeasibility message on an
infeasible page. -/
theorem process_page_error (page : Page) (iw ih tm bm sm angle ux uy : ℚ)
    (hbad : pageInfeasible page iw ih tm bm sm) :
    process_page page iw ih tm bm sm angle ux uy =
      Except.error "Margins too large for image placement with current image size" := by
  unfold pageInfeasible at hbad
  simp only [process_page]
  rw [calculate_position_bounds_eq, if_pos hbad]

/-- process_page succeeds on a feasible page, stamping exactly the image
dimensions it was given. -/
theorem process_page_ok (page : Page) (iw ih tm bm sm angle ux uy : ℚ)
    (hgood : ¬ pageInfeasible page iw ih tm bm sm) :
    process_page page iw ih tm bm sm angle ux uy =
      Except.ok
        ⟨uniform sm ((determine_page_orientation page).1 - iw - sm) ux,
         uniform bm ((determine_page_orientation page).2.1 - ih - tm) uy,
         angle, iw, ih⟩ := by
  unfold pageInfeasible at hgood
  simp only [process_page]
  rw [calculate_position_bounds_eq, if_neg hgood]
  rfl

/-- On a list whose first infeasible page is `bad`, the page loop aborts
with the error annotated by the 1-based index of `bad`. -/
theorem pageLoop_first_infeasible (iw ih tm bm sm : ℚ) (rnd : ℕ → ℚ) :
    ∀ (pre : List Page) (bad : Page) (rest : List Page) (ctr num : ℕ),
    (∀ p ∈ pre, ¬ pageInfeasible p iw ih tm bm sm) →
    pageInfeasible bad iw ih tm bm sm →
    pageLoop iw ih tm bm sm rnd (pre ++ bad :: rest) ctr num =
      Except.error ("Page " ++ toString (num + pre.length + 1) ++ ": " ++
        "Margins too large for image placement with current image size")
  | [], bad, rest, ctr, num, _, hbad => by
    simp only [List.nil_append, pageLoop,
      process_page_error bad iw ih tm bm sm _ _ _ hbad, List.length_nil,
      Nat.add_zero]
  | p :: pre, bad, rest, ctr, num, hpre, hbad => by
    have hp : ¬ pageInfeasible p iw ih tm bm sm := hpre p (List.mem_cons_self p pre)
    have hn : num + (p :: pre).length + 1 = num + 1 + pre.length + 1 := by
      simp only [List.length_cons]
      omega
    rw [hn]
    have ih2 := pageLoop_first_infeasible iw ih tm bm sm rnd pre bad rest (ctr + 3)
      (num + 1) (fun q hq => hpre q (List.mem_cons_of_mem p hq)) hbad
    simp only [List.cons_append, pageLoop,
      process_page_ok p iw ih tm bm sm _ _ _ hp, List.append_eq, ih2]

/-- Every placement in a successful page-loop result carries exactly the
image dimensions the loop was given. -/
theorem pageLoop_placement_dims (iw ih tm bm sm : ℚ) (rnd : ℕ → ℚ) :
    ∀ (pages : List Page) (ctr num : ℕ) (out : List (Page × Placement)),
    pageLoop iw ih tm bm sm rnd pages ctr num = Except.ok out →
    ∀ pp ∈ out, pp.2.img_width = iw ∧ pp.2.img_height = ih
  | [], ctr, num, out, hok => by
    simp only [pageLoop, Except.ok.injEq] at hok
    subst hok
    intro pp hpp
    simp at hpp
  | page :: rest, ctr, num, out, hok => by
    by_cases hp : pageInfeasible page iw ih tm bm sm
    · rw [pageLoop, process_page_error page iw ih tm bm sm _ _ _ hp] at hok
      exact absurd hok (by simp)
    · rw [pageLoop, process_page_ok page iw ih tm bm sm _ _ _ hp] at hok
      revert hok
      cases htail : pageLoop iw ih tm bm sm rnd rest (ctr + 3) (num + 1) with
      | error e => intro hok; exact absurd hok (by simp)
      | ok tail =>
        intro hok
        simp only [Except.ok.injEq] at hok
        subst hok
        intro pp hpp
        rcases List.mem_cons.mp hpp with hhd | htl
        · subst hhd
          exact ⟨rfl, rfl⟩
        · exact pageLoop_placement_dims iw ih tm bm sm rnd rest (ctr + 3) (num + 1)
            tail htail pp htl

/-! ## Claims -/

/-- C1: for every page width W, page height H, image width w, image height h
and margins top t, bottom b, side s, calculate_position_bounds returns
exactly (min_x, max_x, min_y, max_y) = (s, W - w - s, b, H - h - t), and it
raises the infeasible-placement error if and only if W - w - s ≤ s or
H - h - t ≤ b (equality counts as infeasible); on the horizontal axis the
failure condition is equivalent to w + 2*s ≥ W. -/
theorem claim_C1_position_bounds (W H w h t b s : ℚ) :
    calculate_position_bounds W H w h t b s =
      (if W - w - s ≤ s ∨ H - h - t ≤ b then
        Except.error "Margins too large for image placement with current image size"
      else Except.ok (s, W - w - s, b, H - h - t)) ∧
    (W - w - s ≤ s ↔ w + 2 * s ≥ W) := by
  refine ⟨calculate_position_bounds_eq W H w h t b s, ?_, ?_⟩ <;>
    intro h' <;> linarith

/-- C3: determine_page_orientation swaps the mediabox (width, height) if and
only if the rotation attribute is 90 or 270 (missing or any other value,
including 180, leaves the raw dimensions), reports is_landscape as the
strict comparison of the possibly-swapped values, so a square page reports
false; the function is total. -/
theorem claim_C3_orientation (page : Page) :
    ((page.rotate.getD 0 = 90 ∨ page.rotate.getD 0 = 270) →
      determine_page_orientation page =
        (page.mediaboxHeight, page.mediaboxWidth,
          decide (page.mediaboxHeight > page.mediaboxWidth))) ∧
    (¬(page.rotate.getD 0 = 90 ∨ page.rotate.getD 0 = 270) →
      determine_page_orientation page =
        (page.mediaboxWidth, page.mediaboxHeight,
          decide (page.mediaboxWidth > page.mediaboxHeight))) ∧
    (page.mediaboxWidth = page.mediaboxHeight →
      (determine_page_orientation page).2.2 = false) := by
  refine ⟨fun hr => ?_, fun hr => ?_, fun hsq => ?_⟩
  · simp only [determine_page_orientation, if_pos hr]
  · simp only [determine_page_orientation, if_neg hr]
  · simp only [determine_page_orientation]
    split <;> simp [hsq]

/-- C3 witness: a 612×792 page rotated 90 reports swapped dimensions, an
unrotated one reports the raw dimensions. -/
theorem claim_C3_witness :
    determine_page_orientation ⟨612, 792, some 90⟩ =
      (792, 612, decide ((792 : ℚ) > 612)) ∧
    determine_page_orientation ⟨612, 792, none⟩ =
      (612, 792, decide ((612 : ℚ) > 792)) :=
  ⟨(claim_C3_orientation ⟨612, 792, some 90⟩).1 (Or.inl rfl),
   (claim_C3_orientation ⟨612, 792, none⟩).2.1 (by decide)⟩

/-- C4: for positive native dimensions (w, h) and any max width M,
get_image_dimensions returns (w, h) unchanged when w ≤ M, otherwise
(M, h * (M / w)); the returned width never exceeds the native width, and
for a positive M the scaled pair has exactly the native aspect ratio. -/
theorem claim_C4_image_scaling (w h M : ℚ) (hw : 0 < w) (hh : 0 < h) :
    (w ≤ M → get_image_dimensions w h M = (w, h)) ∧
    (M < w → get_image_dimensions w h M = (M, h * (M / w))) ∧
    (get_image_dimensions w h M).1 ≤ w ∧
    (0 < M → M < w →
      (get_image_dimensions w h M).1 / (get_image_dimensions w h M).2 = w / h) := by
  have hw' : w ≠ 0 := hw.ne'
  have hh' : h ≠ 0 := hh.ne'
  refine ⟨fun hle => ?_, fun hlt => ?_, ?_, fun hM hlt => ?_⟩
  · simp only [get_image_dimensions, if_neg (not_lt.mpr hle)]
  · simp only [get_image_dimensions, if_pos hlt, Prod.mk.injEq, true_and]
    rw [div_div_eq_mul_div, mul_comm, mul_div_assoc]
  · by_cases hlt : w > M
    · simp only [get_image_dimensions, if_pos hlt]
      exact hlt.le
    · simp only [get_image_dimensions, if_neg hlt, le_refl]
  · have hM' : M ≠ 0 := hM.ne'
    simp only [get_image_dimensions, if_pos hlt]
    rw [div_div_eq_mul_div, mul_comm, mul_div_assoc, div_self hM', mul_one]

/-- C4 witness: a 300×150 image capped at width 200 scales to
(200, 150 * (200/300)). -/
theorem claim_C4_witness :
    get_image_dimensions 300 150 200 = (200, 150 * ((200 : ℚ) / 300)) :=
  (claim_C4_image_scaling 300 150 200 (by norm_num) (by norm_num)).2.1 (by norm_num)

/-- C5: for every draw u ∈ [0,1] of the random source, the portrait angle
lies in [0, 10]; the landscape angle is drawn with the reversed
"upper,lower" convention uniform 90 75 and lies in [75, 90]; in both
orientations the sampled angle is non-negative. -/
theorem claim_C5_angle_ranges (u : ℚ) (h0 : 0 ≤ u) (h1 : u ≤ 1) :
    (0 ≤ sample_rotation_angle false u ∧ sample_rotation_angle false u ≤ 10) ∧
    (sample_rotation_angle true u = uniform 90 75 u ∧
      75 ≤ sample_rotation_angle true u ∧ sample_rotation_angle true u ≤ 90) ∧
    (∀ o : Bool, 0 ≤ sample_rotation_angle o u) := by
  simp only [sample_rotation_angle, uniform, Bool.false_eq_true, if_false, if_true]
  refine ⟨⟨by nlinarith, by nlinarith⟩, ⟨trivial, by nlinarith, by nlinarith⟩, fun o => ?_⟩
  cases o
  · simp only [Bool.false_eq_true, if_false]
    nlinarith
  · simp only [if_true]
    nlinarith

/-- C5 witness: the draw u = 1/2 yields a non-negative portrait angle and
the landscape angle follows the uniform 90 75 convention. -/
theorem claim_C5_witness :
    0 ≤ sample_rotation_angle false (1/2) ∧
    sample_rotation_angle true (1/2) = uniform 90 75 (1/2) := by
  have h := claim_C5_angle_ranges (1/2) (by norm_num) (by norm_num)
  exact ⟨h.1.1, h.2.1.1⟩

/-- C6: for every bounds tuple with max_x > min_x and max_y > min_y and
every pair of draws ux, uy ∈ [0,1] of the random source,
get_random_position is the pair of the two independent uniform samples and
lands inside [min_x, max_x] × [min_y, max_y]. -/
theorem claim_C6_position_in_bounds (min_x max_x min_y max_y ux uy : ℚ)
    (hx : min_x < max_x) (hy : min_y < max_y)
    (hux0 : 0 ≤ ux) (hux1 : ux ≤ 1) (huy0 : 0 ≤ uy) (huy1 : uy ≤ 1) :
    get_random_position min_x max_x min_y max_y ux uy =
      (uniform min_x max_x ux, uniform min_y max_y uy) ∧
    min_x ≤ (get_random_position min_x max_x min_y max_y ux uy).1 ∧
    (get_random_position min_x max_x min_y max_y ux uy).1 ≤ max_x ∧
    min_y ≤ (get_random_position min_x max_x min_y max_y ux uy).2 ∧
    (get_random_position min_x max_x min_y max_y ux uy).2 ≤ max_y := by
  simp only [get_random_position, uniform]
  refine ⟨trivial, by nlinarith, by nlinarith, by nlinarith, by nlinarith⟩

/-- C6 witness: bounds (0, 10, 0, 20) with both draws 1/2 give the two
uniform samples, the first coordinate being within bounds. -/
theorem claim_C6_witness :
    get_random_position 0 10 0 20 (1/2) (1/2) =
      (uniform 0 10 (1/2), uniform 0 20 (1/2)) ∧
    (0 : ℚ) ≤ (get_random_position 0 10 0 20 (1/2) (1/2)).1 := by
  have h := claim_C6_position_in_bounds 0 10 0 20 (1/2) (1/2) (by norm_num)
    (by norm_num) (by norm_num) (by norm_num) (by norm_num) (by norm_num)
  exact ⟨h.1, h.2.1⟩

/-- The scaled width returned by get_image_dimensions is the minimum of the
native width and the cap. -/
theorem get_image_dimensions_width_min (w h M : ℚ) :
    (get_image_dimensions w h M).1 = min w M := by
  simp only [get_image_dimensions]
  split
  · rename_i hc
    exact (min_eq_right hc.le).symm
  · rename_i hc
    exact (min_eq_left (not_lt.mp hc)).symm

/-- C2: when both inputs exist and the first infeasible page is `bad`
(preceded by the feasible pages `pre`), insert_image_to_pdf fails with the
bounds error annotated with the 1-based index of `bad`; the pages in `rest`
are never processed and the result is an error, so the writer is never
invoked and no output is produced. -/
theorem claim_C2_infeasible_aborts (fs : String → Bool) (ipath mpath : String)
    (pre : List Page) (bad : Page) (rest : List Page) (nw nh tm bm sm : ℚ)
    (rnd : ℕ → ℚ) (hin : fs ipath = true) (him : fs mpath = true)
    (hpre : ∀ p ∈ pre, ¬ pageInfeasible p (get_image_dimensions nw nh 200).1
      (get_image_dimensions nw nh 200).2 (convertMargins tm bm sm).1
      (convertMargins tm bm sm).2.1 (convertMargins tm bm sm).2.2)
    (hbad : pageInfeasible bad (get_image_dimensions nw nh 200).1
      (get_image_dimensions nw nh 200).2 (convertMargins tm bm sm).1
      (convertMargins tm bm sm).2.1 (convertMargins tm bm sm).2.2) :
    insert_image_to_pdf fs ipath mpath (pre ++ bad :: rest) nw nh rnd tm bm sm =
      Except.error ("Page " ++ toString (pre.length + 1) ++ ": " ++
        "Margins too large for image placement with current image size") := by
  simp only [insert_image_to_pdf, check_file_exists, hin, him, if_true]
  rw [pageLoop_first_infeasible _ _ _ _ _ rnd pre bad rest 0 0 hpre hbad]
  norm_num

/-- C2 witness: a single 100×100 page cannot hold the 200-wide scaled image
even with zero margins, so the run aborts annotated with page 1. -/
theorem claim_C2_witness :
    insert_image_to_pdf (fun _ => true) "input.pdf" "image.png"
      ([] ++ (⟨100, 100, none⟩ : Page) :: []) 300 300 (fun _ => 0) 0 0 0 =
      Except.error ("Page " ++ toString (List.length ([] : List Page) + 1) ++ ": " ++
        "Margins too large for image placement with current image size") :=
  claim_C2_infeasible_aborts (fun _ => true) "input.pdf" "image.png" []
    ⟨100, 100, none⟩ [] 300 300 0 0 0 (fun _ => 0) rfl rfl (by simp)
    (by simp only [pageInfeasible, determine_page_orientation, get_image_dimensions,
          convertMargins, MM_TO_POINTS, Option.getD]
        norm_num)

/-- C7: a missing input PDF path aborts the run with the FileNotFound error
naming that path, and with an existing input PDF a missing image path
aborts naming the image path; in both cases the result is the same for
every page list and random stream (no page is examined) and is an error,
so the output is never written. -/
theorem claim_C7_missing_inputs (fs : String → Bool) (ipath mpath : String)
    (pages : List Page) (nw nh : ℚ) (rnd : ℕ → ℚ) (tm bm sm : ℚ) :
    (fs ipath = false →
      insert_image_to_pdf fs ipath mpath pages nw nh rnd tm bm sm =
        Except.error ("Input PDF file not found: " ++ ipath)) ∧
    (fs ipath = true → fs mpath = false →
      insert_image_to_pdf fs ipath mpath pages nw nh rnd tm bm sm =
        Except.error ("Image file not found: " ++ mpath)) := by
  constructor
  · intro h
    simp [insert_image_to_pdf, check_file_exists, h]
  · intro h1 h2
    simp [insert_image_to_pdf, check_file_exists, h1, h2]

/-- C7 witness: with an empty file system the run aborts naming the input
PDF path. -/
theorem claim_C7_witness :
    insert_image_to_pdf (fun _ => false) "missing.pdf" "image.png" [] 100 100
      (fun _ => 0) 0 0 0 =
      Except.error ("Input PDF file not found: " ++ "missing.pdf") :=
  (claim_C7_missing_inputs (fun _ => false) "missing.pdf" "image.png" [] 100 100
    (fun _ => 0) 0 0 0).1 rfl

/-- C8 counterexample: insert_image_to_pdf performs no validation of its
caller-supplied margins, so the call with top_margin = -1 mm passes the
negative value -2.83465 into the geometry computation (convertMargins is
exactly the conversion insert_image_to_pdf applies to the margins it hands
to calculate_position_bounds), refuting the universal invariant. -/
theorem claim_C8_counterexample : (convertMargins (-1) 50 50).1 < 0 := by
  norm_num [convertMargins, MM_TO_POINTS]

/-- C8 amended: the margins passed into the geometry computation are the
caller-supplied values scaled by the positive constant 2.83465, so they are
non-negative exactly when the caller-supplied millimetre values are; the
code itself never enforces non-negativity. -/
theorem claim_C8_margins_nonneg_iff (tm bm sm : ℚ) :
    (0 ≤ (convertMargins tm bm sm).1 ↔ 0 ≤ tm) ∧
    (0 ≤ (convertMargins tm bm sm).2.1 ↔ 0 ≤ bm) ∧
    (0 ≤ (convertMargins tm bm sm).2.2 ↔ 0 ≤ sm) := by
  unfold convertMargins MM_TO_POINTS
  refine ⟨?_, ?_, ?_⟩ <;> constructor <;> intro h <;> nlinarith

/-- C9: with both inputs present and an input PDF containing zero pages,
the run succeeds and the writer receives an empty page list. -/
theorem claim_C9_empty_document (fs : String → Bool) (ipath mpath : String)
    (nw nh : ℚ) (rnd : ℕ → ℚ) (tm bm sm : ℚ)
    (hin : fs ipath = true) (him : fs mpath = true) :
    insert_image_to_pdf fs ipath mpath [] nw nh rnd tm bm sm = Except.ok [] := by
  simp [insert_image_to_pdf, check_file_exists, hin, him, pageLoop]

/-- C9 witness: the empty input document yields an empty output document. -/
theorem claim_C9_witness :
    insert_image_to_pdf (fun _ => true) "input.pdf" "image.png" [] 100 100
      (fun _ => 0) 0 0 0 = Except.ok [] :=
  claim_C9_empty_document (fun _ => true) "input.pdf" "image.png" 100 100
    (fun _ => 0) 0 0 0 rfl rfl

/-- C10: every placement in a successful run of insert_image_to_pdf stamps
the image at width min(native width, 200) — the image is scaled once with
the default cap 200 — with the same height for every page, and the stamped
width never exceeds 200 points. -/
theorem claim_C10_width_cap (fs : String → Bool) (ipath mpath : String)
    (pages : List Page) (nw nh : ℚ) (rnd : ℕ → ℚ) (tm bm sm : ℚ)
    (out : List (Page × Placement))
    (hok : insert_image_to_pdf fs ipath mpath pages nw nh rnd tm bm sm =
      Except.ok out) :
    ∀ pp ∈ out, pp.2.img_width = min nw 200 ∧
      pp.2.img_height = (get_image_dimensions nw nh 200).2 ∧
      pp.2.img_width ≤ 200 := by
  cases hfsin : fs ipath with
  | false => simp [insert_image_to_pdf, check_file_exists, hfsin] at hok
  | true =>
    cases hfsim : fs mpath with
    | false => simp [insert_image_to_pdf, check_file_exists, hfsin, hfsim] at hok
    | true =>
      simp only [insert_image_to_pdf, check_file_exists, hfsin, hfsim, if_true] at hok
      intro pp hpp
      have h := pageLoop_placement_dims _ _ _ _ _ rnd pages 0 0 out hok pp hpp
      refine ⟨?_, h.2, ?_⟩
      · rw [h.1, get_image_dimensions_width_min]
      · rw [h.1, get_image_dimensions_width_min]
        exact min_le_right _ _

/-- C10 witness: in the successful one-page run with a 100×50 image, the
placement stamps width min(100, 200) = 100 ≤ 200 and the scaled height. -/
theorem claim_C10_witness :
    (⟨0, 0, 0, 100, 50⟩ : Placement).img_width = min (100 : ℚ) 200 ∧
    (⟨0, 0, 0, 100, 50⟩ : Placement).img_height = (get_image_dimensions 100 50 200).2 ∧
    (⟨0, 0, 0, 100, 50⟩ : Placement).img_width ≤ 200 :=
  claim_C10_width_cap (fun _ => true) "input.pdf" "image.png" [⟨612, 792, none⟩]
    100 50 (fun _ => 0) 0 0 0 [(⟨612, 792, none⟩, ⟨0, 0, 0, 100, 50⟩)]
    (by simp only [insert_image_to_pdf, check_file_exists, pageLoop, process_page,
          determine_page_orientation, calculate_position_bounds, get_random_position,
          uniform, sample_rotation_angle, get_image_dimensions, convertMargins,
          MM_TO_POINTS, Option.getD]
        norm_num)
    (⟨612, 792, none⟩, ⟨0, 0, 0, 100, 50⟩) (by simp)

end PDFstamping
